import Mathlib

/-!
Verification of the CQRS building-blocks core of `ai-enterprise-studio`:
the mediator with pipeline behaviors (`libs/buildingblocks/cqrs/mediator.py`),
the pipeline behaviors (`libs/buildingblocks/behaviors/pipeline_behaviors.py`),
the outbox CQRS handlers (`libs/buildingblocks/messaging/outbox_cqrs.py`),
the outbox row model (`libs/models/messaging/event_outbox.py`) and
the outbox publisher (`libs/buildingblocks/messaging/outbox_publisher.py`).

The Python code is asynchronous and exception-based; we embed it in a
state-plus-exception semantics: a computation of type `Comp σ α` takes a
state and returns the updated state together with either a value or a
raised exception.  Awaiting is invisible to the values computed, so the
embedding elides it.
-/

namespace AES

/-- The exception classes of `libs/buildingblocks/exceptions/pipeline_exceptions.py`
plus the builtin `ValueError` and a catch-all for arbitrary exceptions.
Each constructor carries the data stored by the corresponding `__init__`. -/
inductive PyExc where
  | handlerNotFound (requestType : String)
  | pipelineExecution (message : String) (requestType : String)
      (behaviorType : String) (inner : PyExc)
  | validationPipeline (requestType : String) (validationErrors : List String)
  | authorizationPipeline (requestType : String) (userId : Option String)
      (requiredPermission : Option String)
  | transactionPipeline (requestType : String) (operation : String) (inner : PyExc)
  | rateLimitExceeded (rateLimitKey : String) (requestsPerMinute : Nat)
  | circuitBreakerOpen (circuitKey : String) (failureCount : Nat) (failureThreshold : Nat)
  | valueError (message : String)
  | otherError (message : String)
deriving DecidableEq, Repr

namespace PyExc

/-- `isinstance(e, HandlerNotFoundException)`. -/
def isHandlerNotFound : PyExc → Bool
  | handlerNotFound _ => true
  | _ => false

/-- `isinstance(e, PipelineExecutionException)`: true for
`PipelineExecutionException` itself and its subclasses
(`ValidationPipelineException`, `AuthorizationPipelineException`,
`TransactionPipelineException`, `RateLimitExceededException`,
`CircuitBreakerOpenException`); false for `HandlerNotFoundException`
(a direct subclass of `PipelineException`) and non-pipeline exceptions. -/
def isPipelineExecutionException : PyExc → Bool
  | pipelineExecution _ _ _ _ => true
  | validationPipeline _ _ => true
  | authorizationPipeline _ _ _ => true
  | transactionPipeline _ _ _ => true
  | rateLimitExceeded _ _ => true
  | circuitBreakerOpen _ _ _ => true
  | _ => false

/-- `str(e)`: the message built by each exception's `__init__` (for
`PipelineExecutionException` subclasses the `full_message` built by
`PipelineExecutionException.__init__`). -/
def str : PyExc → String
  | handlerNotFound rt => "No handler registered for request type: " ++ rt
  | pipelineExecution m rt bt _ =>
      "Pipeline execution failed in " ++ bt ++ " for " ++ rt ++ ": " ++ m
  | validationPipeline rt errs =>
      "Pipeline execution failed in ValidationBehavior for " ++ rt ++
        ": Validation failed: " ++ String.intercalate "; " errs
  | authorizationPipeline rt uid rp =>
      match rp with
      | some p =>
          "Pipeline execution failed in AuthorizationBehavior for " ++ rt ++
            ": User " ++ uid.getD "unknown" ++ " lacks required permission: " ++ p
      | none =>
          "Pipeline execution failed in AuthorizationBehavior for " ++ rt ++
            ": Authentication required for " ++ rt
  | transactionPipeline rt op _ =>
      "Pipeline execution failed in TransactionBehavior for " ++ rt ++
        ": Transaction " ++ op ++ " failed"
  | rateLimitExceeded k n =>
      "Pipeline execution failed in RateLimitingBehavior for RateLimiting: " ++
        "Rate limit exceeded for '" ++ k ++ "': " ++ toString n ++ " requests/minute"
  | circuitBreakerOpen k fc ft =>
      "Pipeline execution failed in CircuitBreakerBehavior for CircuitBreaker: " ++
        "Circuit breaker open for '" ++ k ++ "': " ++ toString fc ++ "/" ++
        toString ft ++ " failures"
  | valueError m => m
  | otherError m => m

end PyExc

/-- A computation over mutable state `σ` that may raise a `PyExc`:
the semantics of an awaited Python call. The state is returned even when
an exception is raised (Python exceptions do not roll back mutations). -/
def Comp (σ α : Type) : Type := σ → σ × Except PyExc α

/-- A pipeline behavior: `handle(request, next_handler)` from
`IPipelineBehavior` in `pipeline_behaviors.py`. -/
structure PipelineBehavior (σ ρ α : Type) where
  handle : ρ → Comp σ α → Comp σ α

/-- `EnterpriseMediator` (`mediator.py`): per-kind handler registries keyed by
the request's type (embedded as the type's name) and the ordered list of
pipeline behaviors. Handlers of all three kinds produce an `α`;
`send_command` discards the value as the Python method returns `None`. -/
structure EnterpriseMediator (σ ρ α : Type) where
  commandHandlers : List (String × (ρ → Comp σ α))
  commandWithResponseHandlers : List (String × (ρ → Comp σ α))
  queryHandlers : List (String × (ρ → Comp σ α))
  pipelineBehaviors : List (PipelineBehavior σ ρ α)

/-- Python `dict` lookup for the handler registries (first binding for the
key; registration overwrites, so a key occurs at most once). -/
def dictLookup {β : Type} (m : List (String × β)) (k : String) : Option β :=
  (m.find? (fun p => p.fst = k)).map Prod.snd

/-- `EnterpriseMediator._execute_pipeline`: if no behaviors are registered,
call the final handler directly; otherwise iterate the behaviors in
reverse registration order, wrapping each around the chain built so far,
and run the resulting outermost callable. -/
def executePipeline {σ ρ α : Type} (behaviors : List (PipelineBehavior σ ρ α))
    (request : ρ) (finalHandler : Comp σ α) : Comp σ α :=
  if behaviors.isEmpty then finalHandler
  else behaviors.reverse.foldl
    (fun currentHandler behavior => behavior.handle request currentHandler) finalHandler

/-- `EnterpriseMediator.send_command`: look up the command handler by the
request's type (raising `HandlerNotFoundException` when absent), run the
pipeline, and wrap any escaping exception other than
`HandlerNotFoundException` in a `PipelineExecutionException` with phase
`CommandExecution`. Returns `Unit` as the Python method returns `None`. -/
def sendCommand {σ ρ α : Type} (m : EnterpriseMediator σ ρ α)
    (commandType : String) (command : ρ) : Comp σ Unit :=
  fun s =>
    match dictLookup m.commandHandlers commandType with
    | none => (s, .error (.handlerNotFound commandType))
    | some handler =>
      match executePipeline m.pipelineBehaviors command (handler command) s with
      | (s1, .ok _) => (s1, .ok ())
      | (s1, .error e) =>
        if e.isHandlerNotFound then (s1, .error e)
        else (s1, .error (.pipelineExecution
          ("Command execution failed: " ++ e.str) commandType "CommandExecution" e))

/-- `EnterpriseMediator.send_command_with_response`: like `sendCommand` but
returns the pipeline's value and labels the wrap `CommandWithResponseExecution`. -/
def sendCommandWithResponse {σ ρ α : Type} (m : EnterpriseMediator σ ρ α)
    (commandType : String) (command : ρ) : Comp σ α :=
  fun s =>
    match dictLookup m.commandWithResponseHandlers commandType with
    | none => (s, .error (.handlerNotFound commandType))
    | some handler =>
      match executePipeline m.pipelineBehaviors command (handler command) s with
      | (s1, .ok v) => (s1, .ok v)
      | (s1, .error e) =>
        if e.isHandlerNotFound then (s1, .error e)
        else (s1, .error (.pipelineExecution
          ("Command with response execution failed: " ++ e.str) commandType
          "CommandWithResponseExecution" e))

/-- `EnterpriseMediator.send_query`: like `sendCommandWithResponse` over the
query registry, labelling the wrap `QueryExecution`. -/
def sendQuery {σ ρ α : Type} (m : EnterpriseMediator σ ρ α)
    (queryType : String) (query : ρ) : Comp σ α :=
  fun s =>
    match dictLookup m.queryHandlers queryType with
    | none => (s, .error (.handlerNotFound queryType))
    | some handler =>
      match executePipeline m.pipelineBehaviors query (handler query) s with
      | (s1, .ok v) => (s1, .ok v)
      | (s1, .error e) =>
        if e.isHandlerNotFound then (s1, .error e)
        else (s1, .error (.pipelineExecution
          ("Query execution failed: " ++ e.str) queryType "QueryExecution" e))

/-- A generic probe behavior used to observe the execution order of the
chain: it appends `name.before` to the trace, calls `next`, and on a
normal return appends `name.after`; exceptions pass through untouched.
This is the before/`next`/after shape shared by the concrete behaviors. -/
def traceBehavior {ρ α : Type} (name : String) : PipelineBehavior (List String) ρ α :=
  ⟨fun _ nextHandler => fun s =>
    match nextHandler (s ++ [name ++ ".before"]) with
    | (s1, .ok v) => (s1 ++ [name ++ ".after"], .ok v)
    | (s1, .error e) => (s1, .error e)⟩

/-- A terminal handler that records the mark `H` in the trace and returns `v`. -/
def traceHandler {ρ α : Type} (v : α) : ρ → Comp (List String) α :=
  fun _ => fun s => (s ++ ["H"], .ok v)

/-- A terminal handler that records `H` in the trace and raises `e`. -/
def traceFailingHandler {ρ α : Type} (e : PyExc) : ρ → Comp (List String) α :=
  fun _ => fun s => (s ++ ["H"], .error e)

theorem executePipeline_nil {σ ρ α : Type} (request : ρ) (finalHandler : Comp σ α) :
    executePipeline ([] : List (PipelineBehavior σ ρ α)) request finalHandler =
      finalHandler := rfl

theorem executePipeline_cons {σ ρ α : Type} (b : PipelineBehavior σ ρ α)
    (bs : List (PipelineBehavior σ ρ α)) (request : ρ) (finalHandler : Comp σ α) :
    executePipeline (b :: bs) request finalHandler =
      b.handle request (executePipeline bs request finalHandler) := by
  unfold executePipeline
  simp only [List.isEmpty_cons, List.reverse_cons, List.foldl_append, List.foldl_cons,
    List.foldl_nil, Bool.false_eq_true, if_false]
  cases bs with
  | nil => simp
  | cons b' bs' => simp

/-- The successful trace of a chain of probe behaviors, by induction on the
list of probe names. -/
theorem tracePipeline_run {ρ α : Type} (names : List String) (request : ρ) (v : α)
    (s : List String) :
    executePipeline (names.map traceBehavior) request (traceHandler v request) s =
      (s ++ names.map (fun n => n ++ ".before") ++ ["H"] ++
        (names.reverse.map (fun n => n ++ ".after")), .ok v) := by
  induction names generalizing s with
  | nil =>
    simp [executePipeline_nil, traceHandler]
  | cons n rest ih =>
    simp only [List.map_cons, executePipeline_cons, traceBehavior]
    rw [ih (s ++ [n ++ ".before"])]
    simp [List.append_assoc]

/-- An exception raised by the terminal handler passes through a chain of
probe behaviors unchanged: the chain composition adds no wrapping. -/
theorem traceFailPipeline_run {ρ α : Type} (names : List String) (request : ρ) (e : PyExc)
    (s : List String) :
    executePipeline (names.map traceBehavior) request
        (@traceFailingHandler ρ α e request) s =
      (s ++ names.map (fun n => n ++ ".before") ++ ["H"], .error e) := by
  induction names generalizing s with
  | nil =>
    simp [executePipeline_nil, traceFailingHandler]
  | cons n rest ih =>
    simp only [List.map_cons, executePipeline_cons, traceBehavior]
    rw [ih (s ++ [n ++ ".before"])]
    simp [List.append_assoc]

/-- A mediator whose three registries bind `tn` to the trace-recording
handler returning `v` and whose behaviors are the probes named by `names`. -/
def traceMediator (ρ α : Type) (names : List String) (tn : String) (v : α) :
    EnterpriseMediator (List String) ρ α :=
  { commandHandlers := [(tn, traceHandler v)]
    commandWithResponseHandlers := [(tn, traceHandler v)]
    queryHandlers := [(tn, traceHandler v)]
    pipelineBehaviors := names.map traceBehavior }

/-- C1: with behaviors `[B1, ..., Bn]` (probes observing entry and exit) and a
handler `H` registered for the request's type, a successful `send_command`,
`send_command_with_response` or `send_query` produces the onion trace
`B1.before, ..., Bn.before, H, Bn.after, ..., B1.after` (first registered is
outermost), the value returned by the chain is the value returned to the
caller, and with no behaviors registered the dispatcher runs `H` directly. -/
theorem claim_C1_onion_pipeline_order {σ ρ α : Type} (names : List String)
    (tn : String) (request : ρ) (v : α) (fh : Comp σ α) :
    sendQuery (traceMediator ρ α names tn v) tn request [] =
      (names.map (fun n => n ++ ".before") ++ ["H"] ++
        (names.reverse.map (fun n => n ++ ".after")), .ok v) ∧
    sendCommandWithResponse (traceMediator ρ α names tn v) tn request [] =
      (names.map (fun n => n ++ ".before") ++ ["H"] ++
        (names.reverse.map (fun n => n ++ ".after")), .ok v) ∧
    sendCommand (traceMediator ρ α names tn v) tn request [] =
      (names.map (fun n => n ++ ".before") ++ ["H"] ++
        (names.reverse.map (fun n => n ++ ".after")), .ok ()) ∧
    executePipeline [] request fh = fh := by
  refine ⟨?_, ?_, ?_, rfl⟩
  · unfold sendQuery traceMediator
    simp [dictLookup, tracePipeline_run names request v]
  · unfold sendCommandWithResponse traceMediator
    simp [dictLookup, tracePipeline_run names request v]
  · unfold sendCommand traceMediator
    simp [dictLookup, tracePipeline_run names request v]

/-- C2: when no handler is registered for the request's type, every `send_*`
raises `HandlerNotFoundException` carrying that request type, unwrapped (it is
not an instance of `PipelineExecutionException`), the pre-state is returned
untouched (no behavior runs), and this holds for any list of registered
behaviors. -/
theorem claim_C2_handler_not_found_unwrapped {σ ρ α : Type}
    (m : EnterpriseMediator σ ρ α) (tn : String) (request : ρ) (s : σ) :
    (dictLookup m.commandHandlers tn = none →
      sendCommand m tn request s = (s, .error (.handlerNotFound tn))) ∧
    (dictLookup m.commandWithResponseHandlers tn = none →
      sendCommandWithResponse m tn request s = (s, .error (.handlerNotFound tn))) ∧
    (dictLookup m.queryHandlers tn = none →
      sendQuery m tn request s = (s, .error (.handlerNotFound tn))) ∧
    PyExc.isPipelineExecutionException (.handlerNotFound tn) = false := by
  refine ⟨?_, ?_, ?_, rfl⟩
  · intro h
    unfold sendCommand
    rw [h]
  · intro h
    unfold sendCommandWithResponse
    rw [h]
  · intro h
    unfold sendQuery
    rw [h]

/-- A do-nothing behavior standing for an arbitrary configured behavior in
the `HandlerNotFound` scenario (it is never reached). -/
def passBehavior (σ ρ α : Type) : PipelineBehavior σ ρ α :=
  ⟨fun _ nextHandler => nextHandler⟩

/-- Witness for C2: a mediator with three behaviors registered and no handler
for `UnregisteredCommand`; all three dispatch methods surface
`HandlerNotFoundException` unwrapped with the state untouched. -/
theorem claim_C2_witness :
    sendCommand
        { commandHandlers := []
          commandWithResponseHandlers := []
          queryHandlers := []
          pipelineBehaviors :=
            [passBehavior Nat Unit Unit, passBehavior Nat Unit Unit,
              passBehavior Nat Unit Unit] }
        "UnregisteredCommand" () 7 =
      (7, .error (.handlerNotFound "UnregisteredCommand")) ∧
    PyExc.isPipelineExecutionException (.handlerNotFound "UnregisteredCommand") = false := by
  have h := claim_C2_handler_not_found_unwrapped
    ({ commandHandlers := []
       commandWithResponseHandlers := []
       queryHandlers := []
       pipelineBehaviors :=
         [passBehavior Nat Unit Unit, passBehavior Nat Unit Unit,
           passBehavior Nat Unit Unit] } : EnterpriseMediator Nat Unit Unit)
    "UnregisteredCommand" () 7
  exact ⟨h.1 rfl, h.2.2.2⟩

/-- C3: any exception other than `HandlerNotFoundException` escaping the
pipeline is wrapped exactly once at the dispatcher boundary into a
`PipelineExecutionException` whose phase matches the `send_*` method used
(`CommandExecution`, `CommandWithResponseExecution`, `QueryExecution`), whose
`request_type` is the request type's name and whose inner exception is the
original exception; the chain of (probe) behaviors itself adds no wrapping,
and the wrapper is an instance of `PipelineExecutionException`. -/
theorem claim_C3_single_wrap_at_dispatcher {σ ρ α : Type}
    (m : EnterpriseMediator σ ρ α) (tn : String) (request : ρ)
    (handler : ρ → Comp σ α) (s s1 : σ) (e : PyExc)
    (he : e.isHandlerNotFound = false) :
    (dictLookup m.commandHandlers tn = some handler →
      executePipeline m.pipelineBehaviors request (handler request) s = (s1, .error e) →
      sendCommand m tn request s = (s1, .error (.pipelineExecution
        ("Command execution failed: " ++ e.str) tn "CommandExecution" e))) ∧
    (dictLookup m.commandWithResponseHandlers tn = some handler →
      executePipeline m.pipelineBehaviors request (handler request) s = (s1, .error e) →
      sendCommandWithResponse m tn request s = (s1, .error (.pipelineExecution
        ("Command with response execution failed: " ++ e.str) tn
        "CommandWithResponseExecution" e))) ∧
    (dictLookup m.queryHandlers tn = some handler →
      executePipeline m.pipelineBehaviors request (handler request) s = (s1, .error e) →
      sendQuery m tn request s = (s1, .error (.pipelineExecution
        ("Query execution failed: " ++ e.str) tn "QueryExecution" e))) ∧
    (∀ (names : List String) (t : List String),
      executePipeline (names.map traceBehavior) request
          (@traceFailingHandler ρ α e request) t =
        (t ++ names.map (fun n => n ++ ".before") ++ ["H"], .error e)) ∧
    PyExc.isPipelineExecutionException
      (.pipelineExecution ("Command execution failed: " ++ e.str) tn
        "CommandExecution" e) = true := by
  refine ⟨?_, ?_, ?_, ?_, rfl⟩
  · intro hl hp
    unfold sendCommand
    rw [hl]
    simp [hp, he]
  · intro hl hp
    unfold sendCommandWithResponse
    rw [hl]
    simp [hp, he]
  · intro hl hp
    unfold sendQuery
    rw [hl]
    simp [hp, he]
  · intro names t
    exact traceFailPipeline_run names request e t

/-- A terminal handler over trivial state that raises `ValueError("x")`. -/
def valueErrorHandler (ρ α : Type) : ρ → Comp Unit α :=
  fun _ => fun s => (s, .error (.valueError "x"))

/-- Witness for C3: a handler raising `ValueError("x")` under `send_command`
with no behaviors yields a `PipelineExecutionException` with phase
`CommandExecution`, request type `TestCommand` and the original `ValueError`
as inner exception. -/
theorem claim_C3_witness :
    sendCommand
        { commandHandlers := [("TestCommand", valueErrorHandler Unit Unit)]
          commandWithResponseHandlers := []
          queryHandlers := []
          pipelineBehaviors := [] }
        "TestCommand" () () =
      ((), .error (.pipelineExecution "Command execution failed: x" "TestCommand"
        "CommandExecution" (.valueError "x"))) := by
  have h := claim_C3_single_wrap_at_dispatcher
    ({ commandHandlers := [("TestCommand", valueErrorHandler Unit Unit)]
       commandWithResponseHandlers := []
       queryHandlers := []
       pipelineBehaviors := [] } : EnterpriseMediator Unit Unit Unit)
    "TestCommand" () (valueErrorHandler Unit Unit) () () (.valueError "x") rfl
  exact h.1 rfl rfl

/-! ## Outbox data model

`libs/models/messaging/event_outbox.py` and the CQRS handlers of
`libs/buildingblocks/messaging/outbox_cqrs.py`.  A SQLAlchemy session is
embedded as the list of persisted rows plus the server-side defaults
(`id` default `uuid4`, `created_at` server default `now()`) that the
database fills on insert. -/

/-- A domain event as the outbox sees it: its `event_type` name
(`getattr(event, "event_type", None) or type(event).__name__`) and its
serialized payload (`model_dump_json()` / `json.dumps(event.__dict__)`). -/
structure DomainEvent where
  eventTypeName : String
  payloadJson : String
deriving DecidableEq, Repr

/-- A persisted `event_outbox` row (`EventOutbox` in `event_outbox.py`);
UUIDs are embedded as `Nat`, timestamps as `Int`. -/
structure EventOutbox where
  id : Nat
  event_type : String
  event_data : String
  created_at : Int
  published_at : Option Int
  retry_count : Nat
  error_message : Option String
  correlation_id : Option Nat
deriving DecidableEq, Repr

/-- The columns `EventOutbox.from_event` fills; `id` and `created_at` are
left to database defaults and assigned at insert time. -/
structure EventOutboxTemplate where
  event_type : String
  event_data : String
  correlation_id : Option Nat
deriving DecidableEq, Repr

/-- `EventOutbox.from_event`: build the outbox record for a domain event,
tagging it with the correlation id. -/
def EventOutbox.from_event (event : DomainEvent) (correlationId : Option Nat) :
    EventOutboxTemplate :=
  { event_type := event.eventTypeName
    event_data := event.payloadJson
    correlation_id := correlationId }

/-- `EventOutbox.mark_as_published`: set `published_at` to the current time. -/
def EventOutbox.mark_as_published (r : EventOutbox) (now : Int) : EventOutbox :=
  { r with published_at := some now }

/-- `EventOutbox.mark_as_failed`: increment `retry_count` and record the
error message. -/
def EventOutbox.mark_as_failed (r : EventOutbox) (errorMessage : String) : EventOutbox :=
  { r with retry_count := r.retry_count + 1, error_message := some errorMessage }

/-- A unit of work: the pending/persisted outbox rows plus the database
defaults used on insert (fresh id counter, server clock). -/
structure DbSession where
  rows : List EventOutbox
  nextId : Nat
  serverNow : Int
deriving DecidableEq, Repr

/-- `db_session.add(outbox_event)`: append the row, with `id` and
`created_at` filled from the database defaults. -/
def sessionAdd (s : DbSession) (t : EventOutboxTemplate) : DbSession :=
  { rows := s.rows ++
      [{ id := s.nextId
         event_type := t.event_type
         event_data := t.event_data
         created_at := s.serverNow
         published_at := none
         retry_count := 0
         error_message := none
         correlation_id := t.correlation_id }]
    nextId := s.nextId + 1
    serverNow := s.serverNow }

/-- `SaveEventToOutboxCommand`: the event, the correlation id, and whether a
`db_session` was attached (the session's content is the `Comp` state). -/
structure SaveEventToOutboxCommand where
  event : DomainEvent
  correlation_id : Option Nat
  hasDbSession : Bool

/-- `SaveEventsToOutboxCommand`: the batch variant. -/
structure SaveEventsToOutboxCommand where
  events : List DomainEvent
  correlation_id : Option Nat
  hasDbSession : Bool

/-- `SaveEventToOutboxHandler.handle`: require a session, then add the row
built by `EventOutbox.from_event`; no commit (left to `TransactionBehavior`). -/
def saveEventToOutboxHandle (command : SaveEventToOutboxCommand) : Comp DbSession Unit :=
  fun s =>
    if ¬command.hasDbSession then
      (s, .error (.valueError "Database session is required"))
    else
      (sessionAdd s (EventOutbox.from_event command.event command.correlation_id), .ok ())

/-- `SaveEventsToOutboxHandler.handle`: require a session, then add one row
per event in order. -/
def saveEventsToOutboxHandle (command : SaveEventsToOutboxCommand) : Comp DbSession Unit :=
  fun s =>
    if ¬command.hasDbSession then
      (s, .error (.valueError "Database session is required"))
    else
      (command.events.foldl
        (fun acc event => sessionAdd acc (EventOutbox.from_event event command.correlation_id))
        s, .ok ())

/-- Append all events to the session, as the save handlers do. -/
def addAllEvents (s : DbSession) (events : List DomainEvent)
    (correlationId : Option Nat) : DbSession :=
  events.foldl (fun acc event => sessionAdd acc (EventOutbox.from_event event correlationId)) s

theorem addAllEvents_rows_spec (events : List DomainEvent) (s : DbSession)
    (correlationId : Option Nat) :
    ∃ newRows : List EventOutbox,
      (addAllEvents s events correlationId).rows = s.rows ++ newRows ∧
      newRows.length = events.length ∧
      ∀ r ∈ newRows, r.correlation_id = correlationId ∧ r.published_at = none ∧
        r.retry_count = 0 := by
  induction events generalizing s with
  | nil => exact ⟨[], by simp [addAllEvents], rfl, by simp⟩
  | cons e rest ih =>
    obtain ⟨nr, hrows, hlen, hprops⟩ :=
      ih (sessionAdd s (EventOutbox.from_event e correlationId))
    refine ⟨{ id := s.nextId
              event_type := e.eventTypeName
              event_data := e.payloadJson
              created_at := s.serverNow
              published_at := none
              retry_count := 0
              error_message := none
              correlation_id := correlationId } :: nr, ?_, by simp [hlen], ?_⟩
    · have : addAllEvents s (e :: rest) correlationId =
        addAllEvents (sessionAdd s (EventOutbox.from_event e correlationId)) rest
          correlationId := rfl
      rw [this, hrows]
      simp [sessionAdd, EventOutbox.from_event]
    · intro r hr
      rcases List.mem_cons.mp hr with h | h
      · subst h
        exact ⟨rfl, rfl, rfl⟩
      · exact hprops r h

/-! ## OutboxBehavior (`pipeline_behaviors.py`) -/

/-- The fields of a request as `OutboxBehavior.handle` inspects them:
whether it is an `ICommand`/`ICommandWithResponse`, its `domain_events`,
whether a `db_session` is attached, and its `correlation_id`. -/
structure OutboxRequest where
  isCommandLike : Bool
  domain_events : List DomainEvent
  hasDbSession : Bool
  correlation_id : Option Nat

/-- `OutboxBehavior.handle`: run `next` first; on success, for a command
carrying domain events with a session and a configured mediator, send the
single- or batch-save command through the mediator (`sendSaveSingle` /
`sendSaveBatch` stand for `self._mediator.send_command` on the respective
command), swallowing any save failure so the business result survives. -/
def outboxBehaviorHandle {α : Type} (mediatorConfigured : Bool)
    (sendSaveSingle : SaveEventToOutboxCommand → Comp DbSession Unit)
    (sendSaveBatch : SaveEventsToOutboxCommand → Comp DbSession Unit)
    (request : OutboxRequest) (nextHandler : Comp DbSession α) : Comp DbSession α :=
  fun s =>
    match nextHandler s with
    | (s1, .error e) => (s1, .error e)
    | (s1, .ok response) =>
      if ¬request.isCommandLike then (s1, .ok response)
      else
        match request.domain_events with
        | [] => (s1, .ok response)
        | [e0] =>
          if ¬request.hasDbSession then (s1, .ok response)
          else if ¬mediatorConfigured then (s1, .ok response)
          else
            match sendSaveSingle
                { event := e0
                  correlation_id := request.correlation_id
                  hasDbSession := true } s1 with
            | (s2, .ok _) => (s2, .ok response)
            | (s2, .error _) => (s2, .ok response)
        | e0 :: e1 :: rest =>
          if ¬request.hasDbSession then (s1, .ok response)
          else if ¬mediatorConfigured then (s1, .ok response)
          else
            match sendSaveBatch
                { events := e0 :: e1 :: rest
                  correlation_id := request.correlation_id
                  hasDbSession := true } s1 with
            | (s2, .ok _) => (s2, .ok response)
            | (s2, .error _) => (s2, .ok response)

/-- C4: for a command carrying a non-empty `domain_events` list and a unit
of work, `OutboxBehavior` runs `next()` first; on success every domain event
is appended to that unit of work as an unpublished row tagged with the
command's `correlation_id`; if `next()` raises, zero rows are added; and if
the save itself fails, the error is swallowed and the successful business
result from `next()` is still returned. -/
theorem claim_C4_outbox_after_success {α : Type} (request : OutboxRequest)
    (nextHandler : Comp DbSession α) (s s1 : DbSession) (r : α) (e : PyExc)
    (hc : request.isCommandLike = true)
    (hne : request.domain_events ≠ [])
    (hdb : request.hasDbSession = true) :
    (nextHandler s = (s1, .ok r) →
      outboxBehaviorHandle true saveEventToOutboxHandle saveEventsToOutboxHandle
          request nextHandler s =
        (addAllEvents s1 request.domain_events request.correlation_id, .ok r) ∧
      ∃ newRows : List EventOutbox,
        (addAllEvents s1 request.domain_events request.correlation_id).rows =
          s1.rows ++ newRows ∧
        newRows.length = request.domain_events.length ∧
        ∀ row ∈ newRows, row.correlation_id = request.correlation_id ∧
          row.published_at = none ∧ row.retry_count = 0) ∧
    (nextHandler s = (s1, .error e) →
      outboxBehaviorHandle true saveEventToOutboxHandle saveEventsToOutboxHandle
          request nextHandler s = (s1, .error e)) ∧
    (∀ (failSingle : SaveEventToOutboxCommand → Comp DbSession Unit)
        (failBatch : SaveEventsToOutboxCommand → Comp DbSession Unit),
      (∀ c t, failSingle c t = (t, .error e)) →
      (∀ c t, failBatch c t = (t, .error e)) →
      nextHandler s = (s1, .ok r) →
      outboxBehaviorHandle true failSingle failBatch request nextHandler s =
        (s1, .ok r)) := by
  refine ⟨?_, ?_, ?_⟩
  · intro hnext
    constructor
    · unfold outboxBehaviorHandle
      rw [hnext, hc]
      cases hev : request.domain_events with
      | nil => exact absurd hev hne
      | cons e0 tail =>
        cases tail with
        | nil =>
          simp [hdb, saveEventToOutboxHandle, addAllEvents]
        | cons e1 rest =>
          simp [hdb, saveEventsToOutboxHandle, addAllEvents]
    · exact addAllEvents_rows_spec request.domain_events s1 request.correlation_id
  · intro hnext
    unfold outboxBehaviorHandle
    rw [hnext]
  · intro failSingle failBatch hfs hfb hnext
    unfold outboxBehaviorHandle
    rw [hnext, hc]
    cases hev : request.domain_events with
    | nil => exact absurd hev hne
    | cons e0 tail =>
      cases tail with
      | nil => simp [hdb, hfs]
      | cons e1 rest => simp [hdb, hfb]

/-- Witness for C4: a command with two domain events and correlation id 42,
over an empty session, whose handler succeeds with value 99: the behavior
returns 99 and exactly two unpublished rows tagged 42 are added. -/
theorem claim_C4_witness :
    ({ isCommandLike := true, domain_events := [⟨"E1", "d"⟩, ⟨"E2", "d"⟩],
       hasDbSession := true, correlation_id := some 42 } : OutboxRequest).domain_events ≠
        [] ∧
    (outboxBehaviorHandle true saveEventToOutboxHandle saveEventsToOutboxHandle
        { isCommandLike := true, domain_events := [⟨"E1", "d"⟩, ⟨"E2", "d"⟩],
          hasDbSession := true, correlation_id := some 42 }
        (fun t => (t, .ok 99)) { rows := [], nextId := 0, serverNow := 5 } =
      (addAllEvents { rows := [], nextId := 0, serverNow := 5 }
        [⟨"E1", "d"⟩, ⟨"E2", "d"⟩] (some 42), .ok 99) ∧
      ∃ newRows : List EventOutbox,
        (addAllEvents { rows := [], nextId := 0, serverNow := 5 }
          [⟨"E1", "d"⟩, ⟨"E2", "d"⟩] (some 42)).rows = [] ++ newRows ∧
        newRows.length = 2 ∧
        ∀ row ∈ newRows, row.correlation_id = some 42 ∧
          row.published_at = none ∧ row.retry_count = 0) := by
  refine ⟨by simp, ?_⟩
  exact (claim_C4_outbox_after_success
    ({ isCommandLike := true, domain_events := [⟨"E1", "d"⟩, ⟨"E2", "d"⟩],
       hasDbSession := true, correlation_id := some 42 } : OutboxRequest)
    (fun t => (t, .ok 99))
    ({ rows := [], nextId := 0, serverNow := 5 } : DbSession)
    ({ rows := [], nextId := 0, serverNow := 5 } : DbSession)
    99 (.valueError "unused") rfl (by simp) rfl).1 rfl

/-! ## GetUnpublishedEventsQuery (`outbox_cqrs.py`) -/

/-- Insert a row into a list sorted by `created_at` (ascending). -/
def insertByCreatedAt (r : EventOutbox) : List EventOutbox → List EventOutbox
  | [] => [r]
  | x :: xs =>
    if r.created_at ≤ x.created_at then r :: x :: xs else x :: insertByCreatedAt r xs

/-- The SQL `ORDER BY created_at` (ascending) of the query result, as an
insertion sort; ties between equal `created_at` values are returned in some
order, as in SQL. -/
def sortByCreatedAt : List EventOutbox → List EventOutbox
  | [] => []
  | x :: xs => insertByCreatedAt x (sortByCreatedAt xs)

theorem mem_insertByCreatedAt {a r : EventOutbox} {l : List EventOutbox} :
    a ∈ insertByCreatedAt r l ↔ a = r ∨ a ∈ l := by
  induction l with
  | nil => simp [insertByCreatedAt]
  | cons x xs ih =>
    unfold insertByCreatedAt
    by_cases h : r.created_at ≤ x.created_at
    · simp [h]
    · simp only [h, if_false, List.mem_cons, ih]
      tauto

theorem pairwise_insertByCreatedAt {r : EventOutbox} {l : List EventOutbox}
    (hl : l.Pairwise (fun a b => a.created_at ≤ b.created_at)) :
    (insertByCreatedAt r l).Pairwise (fun a b => a.created_at ≤ b.created_at) := by
  induction l with
  | nil => simp [insertByCreatedAt]
  | cons x xs ih =>
    rcases List.pairwise_cons.mp hl with ⟨hx, hxs⟩
    unfold insertByCreatedAt
    by_cases h : r.created_at ≤ x.created_at
    · simp only [h, if_true]
      refine List.pairwise_cons.mpr ⟨?_, hl⟩
      intro b hb
      rcases List.mem_cons.mp hb with hb | hb
      · subst hb; exact h
      · exact le_trans h (hx b hb)
    · simp only [h, if_false]
      refine List.pairwise_cons.mpr ⟨?_, ih hxs⟩
      intro b hb
      rcases mem_insertByCreatedAt.mp hb with hb | hb
      · subst hb; omega
      · exact hx b hb

theorem mem_sortByCreatedAt {a : EventOutbox} {l : List EventOutbox}
    (h : a ∈ sortByCreatedAt l) : a ∈ l := by
  induction l with
  | nil => simp [sortByCreatedAt] at h
  | cons x xs ih =>
    unfold sortByCreatedAt at h
    rcases mem_insertByCreatedAt.mp h with h | h
    · subst h; exact List.mem_cons_self ..
    · exact List.mem_cons_of_mem _ (ih h)

theorem pairwise_sortByCreatedAt (l : List EventOutbox) :
    (sortByCreatedAt l).Pairwise (fun a b => a.created_at ≤ b.created_at) := by
  induction l with
  | nil => simp [sortByCreatedAt]
  | cons x xs ih => exact pairwise_insertByCreatedAt ih

/-- `GetUnpublishedEventsQuery(limit)`; the session's content is the `Comp`
state, `hasDbSession` records whether one was attached. -/
structure GetUnpublishedEventsQuery where
  limit : Nat
  hasDbSession : Bool

/-- `GetUnpublishedEventsHandler.handle`: require a session, then
`filter(published_at IS NULL)`, `order_by(created_at)`, `limit(limit)`. -/
def getUnpublishedEventsHandle (query : GetUnpublishedEventsQuery) :
    Comp DbSession (List EventOutbox) :=
  fun s =>
    if ¬query.hasDbSession then
      (s, .error (.valueError "Database session is required"))
    else
      (s, .ok ((sortByCreatedAt
        (s.rows.filter (fun r => r.published_at = none))).take query.limit))

/-- C5 (amended): `GetUnpublishedEventsQuery(limit)` returns only rows whose
`published_at` is null, in non-decreasing `created_at` order (ascending,
with ties between equal timestamps permitted), with at most `limit` rows,
and leaves the session untouched. -/
theorem claim_C5_unpublished_query (s : DbSession) (query : GetUnpublishedEventsQuery)
    (hdb : query.hasDbSession = true) :
    ∃ out : List EventOutbox,
      getUnpublishedEventsHandle query s = (s, .ok out) ∧
      (∀ r ∈ out, r.published_at = none) ∧
      out.Pairwise (fun a b => a.created_at ≤ b.created_at) ∧
      out.length ≤ query.limit := by
  refine ⟨(sortByCreatedAt (s.rows.filter (fun r => r.published_at = none))).take
    query.limit, ?_, ?_, ?_, ?_⟩
  · unfold getUnpublishedEventsHandle
    rw [hdb]
    simp
  · intro r hr
    have hmem := mem_sortByCreatedAt (List.mem_of_mem_take hr)
    exact of_decide_eq_true (List.mem_filter.mp hmem).2
  · exact (pairwise_sortByCreatedAt _).take
  · exact List.length_take_le _ _

/-- Witness for C5 (amended): a session holding one published and two
unpublished rows with out-of-order timestamps. -/
theorem claim_C5_witness :
    ∃ out : List EventOutbox,
      getUnpublishedEventsHandle ⟨10, true⟩
          { rows := [⟨0, "E", "d", 9, none, 0, none, none⟩,
                     ⟨1, "E", "d", 4, some 6, 0, none, none⟩,
                     ⟨2, "E", "d", 3, none, 0, none, none⟩],
            nextId := 3, serverNow := 9 } =
        ({ rows := [⟨0, "E", "d", 9, none, 0, none, none⟩,
                    ⟨1, "E", "d", 4, some 6, 0, none, none⟩,
                    ⟨2, "E", "d", 3, none, 0, none, none⟩],
           nextId := 3, serverNow := 9 }, .ok out) ∧
      (∀ r ∈ out, r.published_at = none) ∧
      out.Pairwise (fun a b => a.created_at ≤ b.created_at) ∧
      out.length ≤ 10 :=
  claim_C5_unpublished_query
    { rows := [⟨0, "E", "d", 9, none, 0, none, none⟩,
               ⟨1, "E", "d", 4, some 6, 0, none, none⟩,
               ⟨2, "E", "d", 3, none, 0, none, none⟩],
      nextId := 3, serverNow := 9 } ⟨10, true⟩ rfl

/-- Counterexample to C5 as stated: with two unpublished rows sharing
`created_at = 0`, both are returned and the result is not *strictly*
ascending in `created_at` (the query orders only non-strictly). -/
theorem claim_C5_counterexample :
    (getUnpublishedEventsHandle ⟨10, true⟩
        { rows := [⟨0, "E", "d", 0, none, 0, none, none⟩,
                   ⟨1, "E", "d", 0, none, 0, none, none⟩],
          nextId := 2, serverNow := 0 }).2 =
      .ok [⟨0, "E", "d", 0, none, 0, none, none⟩,
           ⟨1, "E", "d", 0, none, 0, none, none⟩] ∧
    ¬ (⟨0, "E", "d", 0, none, 0, none, none⟩ : EventOutbox).created_at <
        (⟨1, "E", "d", 0, none, 0, none, none⟩ : EventOutbox).created_at := by
  constructor
  · rfl
  · decide

/-! ## Outbox row lifecycle (`event_outbox.py`, `outbox_cqrs.py`) -/

/-- The write operations on the outbox store: `SaveEventToOutboxHandler`,
`MarkEventAsPublishedHandler`, `MarkEventAsFailedHandler` and
`CleanupPublishedEventsHandler` (the latter three carry the time the code
reads from the clock where relevant). -/
inductive OutboxOp where
  | saveEvent (event : DomainEvent) (correlationId : Option Nat)
  | markPublished (eventId : Nat) (now : Int)
  | markFailed (eventId : Nat) (errorMessage : String)
  | cleanupPublished (cutoff : Int)
deriving DecidableEq, Repr

/-- `query(EventOutbox).filter(EventOutbox.id == event_id).first()` followed
by a mutation: update the first row with the given id, if any. -/
def updateFirstById (rows : List EventOutbox) (eventId : Nat)
    (f : EventOutbox → EventOutbox) : List EventOutbox :=
  match rows with
  | [] => []
  | r :: rest =>
    if r.id = eventId then f r :: rest else r :: updateFirstById rest eventId f

/-- One outbox operation applied to the unit of work, following the four
handlers: save adds a pending row; mark-as-published sets `published_at` on
the row; mark-as-failed increments `retry_count` and records the message;
cleanup deletes rows with non-null `published_at` older than the cutoff. -/
def applyOutboxOp (s : DbSession) : OutboxOp → DbSession
  | .saveEvent event correlationId =>
      sessionAdd s (EventOutbox.from_event event correlationId)
  | .markPublished eventId now =>
      { s with
        rows := updateFirstById s.rows eventId (fun r => r.mark_as_published now) }
  | .markFailed eventId errorMessage =>
      { s with
        rows := updateFirstById s.rows eventId (fun r => r.mark_as_failed errorMessage) }
  | .cleanupPublished cutoff =>
      { s with
        rows := s.rows.filter (fun r =>
          match r.published_at with
          | none => true
          | some t => decide (cutoff ≤ t)) }

theorem mem_updateFirstById {rows : List EventOutbox} {eventId : Nat}
    {f : EventOutbox → EventOutbox} {r' : EventOutbox}
    (h : r' ∈ updateFirstById rows eventId f) :
    r' ∈ rows ∨ ∃ r ∈ rows, r.id = eventId ∧ r' = f r := by
  induction rows with
  | nil => simp [updateFirstById] at h
  | cons x xs ih =>
    unfold updateFirstById at h
    by_cases hx : x.id = eventId
    · simp only [hx, if_true, List.mem_cons] at h
      rcases h with h | h
      · exact Or.inr ⟨x, List.mem_cons_self .., hx, h⟩
      · exact Or.inl (List.mem_cons_of_mem _ h)
    · simp only [hx, if_false, List.mem_cons] at h
      rcases h with h | h
      · exact Or.inl (h ▸ List.mem_cons_self ..)
      · rcases ih h with h | ⟨r, hr, hid, he⟩
        · exact Or.inl (List.mem_cons_of_mem _ h)
        · exact Or.inr ⟨r, List.mem_cons_of_mem _ hr, hid, he⟩

/-- C6 (amended): across every single outbox operation, each row of the
resulting store either descends from a pre-existing row with the same id
whose `published_at`, once non-null, stays non-null (pending to published is
terminal) and whose `retry_count` never decreases — increasing, by exactly
one, only under a mark-as-failed on that id — or is the fresh pending row
(null `published_at`, zero `retry_count`) added by a save. -/
theorem claim_C6_row_lifecycle (s : DbSession) (op : OutboxOp) (r' : EventOutbox)
    (h : r' ∈ (applyOutboxOp s op).rows) :
    (∃ r ∈ s.rows, r.id = r'.id ∧
      (r.published_at ≠ none → r'.published_at ≠ none) ∧
      r.retry_count ≤ r'.retry_count ∧
      (r.retry_count < r'.retry_count →
        (∃ m, op = .markFailed r'.id m) ∧ r'.retry_count = r.retry_count + 1)) ∨
    (∃ event correlationId, op = .saveEvent event correlationId ∧
      r'.published_at = none ∧ r'.retry_count = 0) := by
  cases op with
  | saveEvent event correlationId =>
    simp only [applyOutboxOp, sessionAdd, List.mem_append, List.mem_singleton] at h
    rcases h with h | h
    · exact Or.inl ⟨r', h, rfl, fun hp => hp, le_refl _, fun hlt => absurd hlt (by omega)⟩
    · subst h
      exact Or.inr ⟨event, correlationId, rfl, rfl, rfl⟩
  | markPublished eventId now =>
    simp only [applyOutboxOp] at h
    rcases mem_updateFirstById h with h | ⟨r, hr, hid, he⟩
    · exact Or.inl ⟨r', h, rfl, fun hp => hp, le_refl _, fun hlt => absurd hlt (by omega)⟩
    · subst he
      refine Or.inl ⟨r, hr, rfl, fun _ => ?_, le_refl _, fun hlt => absurd hlt ?_⟩
      · simp [EventOutbox.mark_as_published]
      · simp [EventOutbox.mark_as_published]
  | markFailed eventId errorMessage =>
    simp only [applyOutboxOp] at h
    rcases mem_updateFirstById h with h | ⟨r, hr, hid, he⟩
    · exact Or.inl ⟨r', h, rfl, fun hp => hp, le_refl _, fun hlt => absurd hlt (by omega)⟩
    · subst he
      refine Or.inl ⟨r, hr, rfl, fun hp => hp, ?_, fun _ => ⟨⟨errorMessage, ?_⟩, rfl⟩⟩
      · simp [EventOutbox.mark_as_failed]
      · simp [EventOutbox.mark_as_failed, hid]
  | cleanupPublished cutoff =>
    simp only [applyOutboxOp] at h
    have hmem : r' ∈ s.rows := (List.mem_filter.mp h).1
    exact Or.inl ⟨r', hmem, rfl, fun hp => hp, le_refl _, fun hlt => absurd hlt (by omega)⟩

/-- A pending outbox row used in the C6 scenarios. -/
def c6Row0 : EventOutbox := ⟨0, "E", "d", 0, none, 0, none, none⟩

/-- The one-row store holding `c6Row0`. -/
def c6Session0 : DbSession := ⟨[c6Row0], 1, 0⟩

/-- `c6Row0` after a mark-as-failed with message `boom`. -/
def c6RowFailed : EventOutbox := ⟨0, "E", "d", 0, none, 1, some "boom", none⟩

/-- Witness for C6 (amended): a mark-as-failed on a one-row store; the row's
`published_at` stays null and `retry_count` goes 0 to 1. -/
theorem claim_C6_witness :
    c6RowFailed ∈ (applyOutboxOp c6Session0 (.markFailed 0 "boom")).rows ∧
    ((∃ r ∈ c6Session0.rows, r.id = c6RowFailed.id ∧
        (r.published_at ≠ none → c6RowFailed.published_at ≠ none) ∧
        r.retry_count ≤ c6RowFailed.retry_count ∧
        (r.retry_count < c6RowFailed.retry_count →
          (∃ m, OutboxOp.markFailed 0 "boom" = .markFailed c6RowFailed.id m) ∧
          c6RowFailed.retry_count = r.retry_count + 1)) ∨
      (∃ event correlationId,
        OutboxOp.markFailed 0 "boom" = .saveEvent event correlationId ∧
        c6RowFailed.published_at = none ∧ c6RowFailed.retry_count = 0)) := by
  refine ⟨by decide, ?_⟩
  exact claim_C6_row_lifecycle c6Session0 (.markFailed 0 "boom") c6RowFailed (by decide)

/-- Counterexample to C6 as stated: `MarkEventAsPublishedHandler` guards a
repeated publish nowhere, so two mark-as-published operations at times 1 and
2 assign `published_at` twice (`some 1`, then `some 2`): it is not set at
most once. -/
theorem claim_C6_counterexample :
    (applyOutboxOp c6Session0 (.markPublished 0 1)).rows =
      [⟨0, "E", "d", 0, some 1, 0, none, none⟩] ∧
    (applyOutboxOp (applyOutboxOp c6Session0 (.markPublished 0 1))
        (.markPublished 0 2)).rows =
      [⟨0, "E", "d", 0, some 2, 0, none, none⟩] ∧
    some (1 : Int) ≠ some (2 : Int) := by
  refine ⟨by decide, by decide, by decide⟩

/-! ## RateLimitingBehavior (`pipeline_behaviors.py`) -/

/-- Python `dict` assignment `m[k] = v`: replace the binding if present,
else append it. -/
def aListUpdate {β : Type} (m : List (String × β)) (k : String) (v : β) :
    List (String × β) :=
  match m with
  | [] => [(k, v)]
  | (k', v') :: rest =>
    if k' = k then (k, v) :: rest else (k', v') :: aListUpdate rest k v

theorem dictLookup_aListUpdate_same {β : Type} (m : List (String × β)) (k : String)
    (v : β) : dictLookup (aListUpdate m k v) k = some v := by
  induction m with
  | nil => simp [aListUpdate, dictLookup]
  | cons p rest ih =>
    obtain ⟨k', v'⟩ := p
    unfold aListUpdate
    by_cases h : k' = k
    · simp [h, dictLookup]
    · simp only [h, if_false]
      unfold dictLookup
      rw [List.find?_cons_of_neg]
      · exact ih
      · simp [h]

theorem dictLookup_aListUpdate_other {β : Type} (m : List (String × β))
    (k k' : String) (v : β) (h : k' ≠ k) :
    dictLookup (aListUpdate m k v) k' = dictLookup m k' := by
  induction m with
  | nil =>
    simp [aListUpdate, dictLookup, List.find?_cons_of_neg, Ne.symm h]
  | cons p rest ih =>
    obtain ⟨k0, v0⟩ := p
    unfold aListUpdate
    by_cases h0 : k0 = k
    · subst h0
      have hupd : (if k0 = k0 then (k0, v) :: rest else
          (k0, v0) :: aListUpdate rest k0 v) = (k0, v) :: rest := by simp
      rw [hupd]
      unfold dictLookup
      rw [List.find?_cons_of_neg _ (by simp [Ne.symm h]),
        List.find?_cons_of_neg _ (by simp [Ne.symm h])]
    · simp only [h0, if_false]
      unfold dictLookup
      by_cases h1 : k0 = k'
      · subst h1
        rw [List.find?_cons_of_pos _ (by simp), List.find?_cons_of_pos _ (by simp)]
      · rw [List.find?_cons_of_neg _ (by simp [h1]),
          List.find?_cons_of_neg _ (by simp [h1])]
        exact ih

/-- The timestamps recorded for a key that fall inside the trailing
60-second window (`req_time > current_time - 60`); keys not yet tracked
behave as an empty list. -/
def windowTimestamps (s : List (String × List Int)) (k : String) (now : Int) :
    List Int :=
  ((dictLookup s k).getD []).filter (fun t => decide (now - 60 < t))

/-- `RateLimitingBehavior.handle`: without a `rate_limit_key`, pass through;
otherwise drop timestamps older than 60 seconds, store the cleaned list,
reject with `RateLimitExceededException(key, limit)` when the cleaned count
has reached `requests_per_minute` (recording nothing for the rejected call),
and otherwise record the call's timestamp and run `next`. -/
def rateLimitingHandle {α : Type} (requestsPerMinute : Nat)
    (rateLimitKey : Option String) (now : Int)
    (nextHandler : Comp (List (String × List Int)) α) :
    Comp (List (String × List Int)) α :=
  fun s =>
    match rateLimitKey with
    | none => nextHandler s
    | some k =>
      let cleaned := windowTimestamps s k now
      if requestsPerMinute ≤ cleaned.length then
        (aListUpdate s k cleaned, .error (.rateLimitExceeded k requestsPerMinute))
      else
        nextHandler (aListUpdate (aListUpdate s k cleaned) k (cleaned ++ [now]))

/-- C7: with a rate-limit key `k` and limit `L`, the behavior calls `next()`
exactly when the count of recorded timestamps in the trailing 60-second
window is below `L`, recording the admitted call's timestamp; at `L` it
raises `RateLimitExceededException(k, L)` without calling `next()` and
without recording a timestamp; and all other keys' recorded timestamps are
untouched in either case. -/
theorem claim_C7_rate_limiting {α : Type} (requestsPerMinute : Nat) (k : String)
    (now : Int) (nextHandler : Comp (List (String × List Int)) α)
    (s : List (String × List Int)) :
    ((windowTimestamps s k now).length < requestsPerMinute →
      rateLimitingHandle requestsPerMinute (some k) now nextHandler s =
        nextHandler (aListUpdate (aListUpdate s k (windowTimestamps s k now)) k
          (windowTimestamps s k now ++ [now])) ∧
      dictLookup (aListUpdate (aListUpdate s k (windowTimestamps s k now)) k
          (windowTimestamps s k now ++ [now])) k =
        some (windowTimestamps s k now ++ [now])) ∧
    (requestsPerMinute ≤ (windowTimestamps s k now).length →
      rateLimitingHandle requestsPerMinute (some k) now nextHandler s =
        (aListUpdate s k (windowTimestamps s k now),
          .error (.rateLimitExceeded k requestsPerMinute)) ∧
      dictLookup (aListUpdate s k (windowTimestamps s k now)) k =
        some (windowTimestamps s k now)) ∧
    (∀ k', k' ≠ k →
      dictLookup (aListUpdate s k (windowTimestamps s k now)) k' = dictLookup s k' ∧
      dictLookup (aListUpdate (aListUpdate s k (windowTimestamps s k now)) k
          (windowTimestamps s k now ++ [now])) k' = dictLookup s k') := by
  refine ⟨?_, ?_, ?_⟩
  · intro hlt
    constructor
    · unfold rateLimitingHandle
      simp [Nat.not_le.mpr hlt]
    · exact dictLookup_aListUpdate_same ..
  · intro hge
    constructor
    · unfold rateLimitingHandle
      simp [hge]
    · exact dictLookup_aListUpdate_same ..
  · intro k' hk
    refine ⟨dictLookup_aListUpdate_other _ _ _ _ hk, ?_⟩
    rw [dictLookup_aListUpdate_other _ _ _ _ hk, dictLookup_aListUpdate_other _ _ _ _ hk]

/-- Witness for C7, the spec's scenario with `limit = 2`: with two calls for
`u1` already recorded at times 10 and 11, the call at time 12 for `u1` is
rejected with `RateLimitExceededException("u1", 2)` and records nothing,
while an interleaved call for `u2` is admitted. -/
theorem claim_C7_witness :
    (rateLimitingHandle 2 (some "u1") 12 (fun t => (t, Except.ok 0))
        [("u1", [10, 11])] =
      (aListUpdate [("u1", [10, 11])] "u1" (windowTimestamps [("u1", [10, 11])] "u1" 12),
        .error (.rateLimitExceeded "u1" 2)) ∧
      dictLookup (aListUpdate [("u1", [10, 11])] "u1"
          (windowTimestamps [("u1", [10, 11])] "u1" 12)) "u1" =
        some (windowTimestamps [("u1", [10, 11])] "u1" 12)) ∧
    (rateLimitingHandle 2 (some "u2") 12 (fun t => (t, Except.ok 0))
        [("u1", [10, 11])] =
      (fun t => (t, Except.ok 0))
        (aListUpdate (aListUpdate [("u1", [10, 11])] "u2"
            (windowTimestamps [("u1", [10, 11])] "u2" 12)) "u2"
          (windowTimestamps [("u1", [10, 11])] "u2" 12 ++ [12])) ∧
      dictLookup (aListUpdate (aListUpdate [("u1", [10, 11])] "u2"
            (windowTimestamps [("u1", [10, 11])] "u2" 12)) "u2"
          (windowTimestamps [("u1", [10, 11])] "u2" 12 ++ [12])) "u2" =
        some (windowTimestamps [("u1", [10, 11])] "u2" 12 ++ [12])) :=
  ⟨(claim_C7_rate_limiting 2 "u1" 12 (fun t => (t, Except.ok 0))
      [("u1", [10, 11])]).2.1 (by decide),
   (claim_C7_rate_limiting 2 "u2" 12 (fun t => (t, Except.ok 0))
      [("u1", [10, 11])]).1 (by decide)⟩

/-! ## CircuitBreakerBehavior (`pipeline_behaviors.py`) -/

/-- The per-instance state of `CircuitBreakerBehavior`: failure counts and
last failure times per circuit key. -/
structure CircuitBreakerSt where
  failureCounts : List (String × Nat)
  lastFailureTimes : List (String × Int)
deriving DecidableEq, Repr

/-- The `try`/`except` body of `CircuitBreakerBehavior.handle`: run `next`;
on success reset the key's failure count to 0; on failure increment the
failure count, record the failure time, and re-raise. -/
def circuitBreakerRun {α : Type} (k : String) (now : Int)
    (nextHandler : Comp CircuitBreakerSt α) : Comp CircuitBreakerSt α :=
  fun s =>
    match nextHandler s with
    | (s1, .ok v) =>
      ({ s1 with failureCounts := aListUpdate s1.failureCounts k 0 }, .ok v)
    | (s1, .error e) =>
      ({ failureCounts :=
          aListUpdate s1.failureCounts k ((dictLookup s1.failureCounts k).getD 0 + 1)
         lastFailureTimes := aListUpdate s1.lastFailureTimes k now }, .error e)

/-- `CircuitBreakerBehavior.handle`: without a `circuit_breaker_key`, pass
through; otherwise, if the key's failure count has reached the threshold and
the last failure (defaulting to time 0) is younger than `recovery_timeout`,
raise `CircuitBreakerOpenException(key, failure_count, threshold)` without
calling `next`; otherwise run the guarded body. -/
def circuitBreakerHandle {α : Type} (failureThreshold : Nat) (recoveryTimeout : Int)
    (circuitKey : Option String) (now : Int)
    (nextHandler : Comp CircuitBreakerSt α) : Comp CircuitBreakerSt α :=
  fun s =>
    match circuitKey with
    | none => nextHandler s
    | some k =>
      match dictLookup s.failureCounts k with
      | some failureCount =>
        if failureThreshold ≤ failureCount ∧
            now - (dictLookup s.lastFailureTimes k).getD 0 < recoveryTimeout then
          (s, .error (.circuitBreakerOpen k failureCount failureThreshold))
        else circuitBreakerRun k now nextHandler s
      | none => circuitBreakerRun k now nextHandler s

/-- C8: with circuit key `k` and threshold `N`, the behavior runs `next()`
when the key is untracked, its failure count is below `N`, or the last
failure is at least `recovery_timeout` old; when the breaker is open it
raises `CircuitBreakerOpenException(k, failure_count, N)` without invoking
`next()` (state untouched); a success resets the key's failure count to 0;
and a downstream exception increments the failure count, records the
failure time, and is re-raised unchanged. -/
theorem claim_C8_circuit_breaker {α : Type} (failureThreshold : Nat)
    (recoveryTimeout : Int) (k : String) (now : Int)
    (nextHandler : Comp CircuitBreakerSt α) (s s1 : CircuitBreakerSt)
    (failureCount : Nat) (v : α) (e : PyExc) :
    (dictLookup s.failureCounts k = none →
      circuitBreakerHandle failureThreshold recoveryTimeout (some k) now
        nextHandler s = circuitBreakerRun k now nextHandler s) ∧
    (dictLookup s.failureCounts k = some failureCount →
      (failureCount < failureThreshold ∨
        recoveryTimeout ≤ now - (dictLookup s.lastFailureTimes k).getD 0) →
      circuitBreakerHandle failureThreshold recoveryTimeout (some k) now
        nextHandler s = circuitBreakerRun k now nextHandler s) ∧
    (dictLookup s.failureCounts k = some failureCount →
      failureThreshold ≤ failureCount →
      now - (dictLookup s.lastFailureTimes k).getD 0 < recoveryTimeout →
      circuitBreakerHandle failureThreshold recoveryTimeout (some k) now
        nextHandler s =
        (s, .error (.circuitBreakerOpen k failureCount failureThreshold))) ∧
    (nextHandler s = (s1, .ok v) →
      circuitBreakerRun k now nextHandler s =
        ({ s1 with failureCounts := aListUpdate s1.failureCounts k 0 }, .ok v) ∧
      dictLookup (aListUpdate s1.failureCounts k 0) k = some 0) ∧
    (nextHandler s = (s1, .error e) →
      circuitBreakerRun k now nextHandler s =
        ({ failureCounts := aListUpdate s1.failureCounts k
            ((dictLookup s1.failureCounts k).getD 0 + 1)
           lastFailureTimes := aListUpdate s1.lastFailureTimes k now }, .error e) ∧
      dictLookup (aListUpdate s1.failureCounts k
          ((dictLookup s1.failureCounts k).getD 0 + 1)) k =
        some ((dictLookup s1.failureCounts k).getD 0 + 1) ∧
      dictLookup (aListUpdate s1.lastFailureTimes k now) k = some now) := by
  refine ⟨?_, ?_, ?_, ?_, ?_⟩
  · intro hnone
    unfold circuitBreakerHandle
    simp [hnone]
  · intro hsome hcond
    unfold circuitBreakerHandle
    have hnot : ¬(failureThreshold ≤ failureCount ∧
        now - (dictLookup s.lastFailureTimes k).getD 0 < recoveryTimeout) := by
      rcases hcond with h | h
      · exact fun hc => absurd hc.1 (by omega)
      · exact fun hc => absurd hc.2 (by omega)
    simp [hsome, hnot]
  · intro hsome hth hrec
    unfold circuitBreakerHandle
    simp [hsome, hth, hrec]
  · intro hnext
    refine ⟨?_, dictLookup_aListUpdate_same ..⟩
    unfold circuitBreakerRun
    rw [hnext]
  · intro hnext
    refine ⟨?_, dictLookup_aListUpdate_same .., dictLookup_aListUpdate_same ..⟩
    unfold circuitBreakerRun
    rw [hnext]

/-- Witness for C8, the spec's scenario with `threshold = 3`: after 3
failures for key `svc` (last at time 10), the call at time 12 raises
`CircuitBreakerOpenException("svc", 3, 3)` without invoking the wrapped
handler; and with only 2 failures recorded, one success resets the failure
count to 0. -/
theorem claim_C8_witness :
    circuitBreakerHandle 3 60 (some "svc") 12 (fun t => (t, Except.ok 1))
        ⟨[("svc", 3)], [("svc", 10)]⟩ =
      (⟨[("svc", 3)], [("svc", 10)]⟩, .error (.circuitBreakerOpen "svc" 3 3)) ∧
    (circuitBreakerRun "svc" 12 (fun t => (t, Except.ok 1))
        ⟨[("svc", 2)], [("svc", 10)]⟩ =
      ({ failureCounts := aListUpdate [("svc", 2)] "svc" 0,
         lastFailureTimes := [("svc", 10)] }, .ok 1) ∧
      dictLookup (aListUpdate [("svc", 2)] "svc" 0) "svc" = some 0) :=
  ⟨(claim_C8_circuit_breaker 3 60 "svc" 12 (fun t => (t, Except.ok 1))
      ⟨[("svc", 3)], [("svc", 10)]⟩ ⟨[("svc", 3)], [("svc", 10)]⟩ 3 1
      (.valueError "unused")).2.2.1 (by decide) (by decide) (by decide),
   (claim_C8_circuit_breaker 3 60 "svc" 12 (fun t => (t, Except.ok 1))
      ⟨[("svc", 2)], [("svc", 10)]⟩ ⟨[("svc", 2)], [("svc", 10)]⟩ 2 1
      (.valueError "unused")).2.2.2.1 rfl⟩

/-! ## CachingBehavior (`pipeline_behaviors.py`) -/

/-- The state seen by `CachingBehavior`: its `_cache` of
`cache_key ↦ (cached_time, cached_result)` plus a counter of terminal
handler invocations used to observe how often `next` runs. -/
structure CacheSt (α : Type) where
  cache : List (String × (Int × α))
  hcalls : Nat

/-- The miss path of `CachingBehavior.handle`: run `next` and on success
store `(current_time, response)` under the key; an exception is never
cached and propagates unchanged. -/
def cachingRunStore {α : Type} (k : String) (now : Int)
    (nextHandler : Comp (CacheSt α) α) : Comp (CacheSt α) α :=
  fun s =>
    match nextHandler s with
    | (s1, .ok response) =>
      ({ s1 with cache := aListUpdate s1.cache k (now, response) }, .ok response)
    | (s1, .error e) => (s1, .error e)

/-- `CachingBehavior.handle`: without a `cache_key` or with caching
disabled, pass through; on a cache hit younger than `cache_ttl` return the
cached result without calling `next`; otherwise (absent or stale) run the
miss path. -/
def cachingHandle {α : Type} (cacheTtl : Int) (enableCaching : Bool)
    (cacheKey : Option String) (now : Int)
    (nextHandler : Comp (CacheSt α) α) : Comp (CacheSt α) α :=
  fun s =>
    match cacheKey with
    | none => nextHandler s
    | some k =>
      if ¬enableCaching then nextHandler s
      else
        match dictLookup s.cache k with
        | some (cachedTime, cachedResult) =>
          if now - cachedTime < cacheTtl then (s, .ok cachedResult)
          else cachingRunStore k now nextHandler s
        | none => cachingRunStore k now nextHandler s

/-- C9: starting with nothing cached for key `k`, a first call at `t1`
invokes the handler (counter +1) and stores `(t1, v)`; a second call at `t2`
within the TTL returns the identical value `v` with the state untouched and
without invoking its `next` at all (so the handler ran exactly once in
total); and a call at `t3` at or past the TTL invokes the handler again and
stores the fresh `(t3, w)` pair for the key. -/
theorem claim_C9_caching {α : Type} (cacheTtl : Int) (k : String) (t1 t2 t3 : Int)
    (v w : α) (s : CacheSt α) (next2 : Comp (CacheSt α) α)
    (h0 : dictLookup s.cache k = none) :
    cachingHandle cacheTtl true (some k) t1
        (fun st => ({ st with hcalls := st.hcalls + 1 }, .ok v)) s =
      ({ cache := aListUpdate s.cache k (t1, v), hcalls := s.hcalls + 1 }, .ok v) ∧
    (t2 - t1 < cacheTtl →
      cachingHandle cacheTtl true (some k) t2 next2
          { cache := aListUpdate s.cache k (t1, v), hcalls := s.hcalls + 1 } =
        ({ cache := aListUpdate s.cache k (t1, v), hcalls := s.hcalls + 1 }, .ok v)) ∧
    (cacheTtl ≤ t3 - t1 →
      cachingHandle cacheTtl true (some k) t3
          (fun st => ({ st with hcalls := st.hcalls + 1 }, .ok w))
          { cache := aListUpdate s.cache k (t1, v), hcalls := s.hcalls + 1 } =
        ({ cache := aListUpdate (aListUpdate s.cache k (t1, v)) k (t3, w),
           hcalls := s.hcalls + 2 }, .ok w)) := by
  refine ⟨?_, ?_, ?_⟩
  · unfold cachingHandle cachingRunStore
    simp [h0]
  · intro hfresh
    unfold cachingHandle
    simp [dictLookup_aListUpdate_same, hfresh]
  · intro hstale
    unfold cachingHandle cachingRunStore
    simp [dictLookup_aListUpdate_same, Int.not_lt.mpr hstale]

/-- Witness for C9, the spec's scenario with `ttl = 300`: calls at times 0
and 100 with key `q` run the handler once and both return 5; a call at time
400 runs the handler again and stores `(400, 7)`. -/
theorem claim_C9_witness :
    cachingHandle 300 true (some "q") 0
        (fun st => ({ st with hcalls := st.hcalls + 1 }, .ok 5))
        ({ cache := [], hcalls := 0 } : CacheSt Nat) =
      ({ cache := aListUpdate [] "q" (0, 5), hcalls := 1 }, .ok 5) ∧
    cachingHandle 300 true (some "q") 100
        (fun st => ({ st with hcalls := st.hcalls + 1 }, .ok 5))
        { cache := aListUpdate [] "q" (0, 5), hcalls := 1 } =
      ({ cache := aListUpdate [] "q" (0, 5), hcalls := 1 }, .ok 5) ∧
    cachingHandle 300 true (some "q") 400
        (fun st => ({ st with hcalls := st.hcalls + 1 }, .ok 7))
        { cache := aListUpdate [] "q" (0, 5), hcalls := 1 } =
      ({ cache := aListUpdate (aListUpdate [] "q" (0, 5)) "q" (400, 7),
         hcalls := 2 }, .ok 7) := by
  have h := claim_C9_caching 300 "q" 0 100 400 5 7
    ({ cache := [], hcalls := 0 } : CacheSt Nat)
    (fun st => ({ st with hcalls := st.hcalls + 1 }, .ok 5)) rfl
  exact ⟨h.1, h.2.1 (by decide), h.2.2 (by decide)⟩

/-! ## OutboxEventPublisher (`outbox_publisher.py`)

Each helper of the publisher wraps its body in `try`/`except` and logs
instead of re-raising, so every step is embedded as a *total* function on
the publisher's state: nothing a single row can do escapes into the
polling loop. -/

/-- The world the publisher touches: its unit of work and the events
delivered to the external message bus. -/
structure PublisherSt where
  session : DbSession
  busEvents : List DomainEvent
deriving DecidableEq, Repr

/-- `OutboxEventPublisher._reconstruct_event`: look the row's `event_type`
up in the pre-registered `event_registry`; a registered type is a
deserializer which may itself fail (the code catches that and returns
`None` as well). -/
def reconstructOutboxEvent (registry : List (String × (String → Option DomainEvent)))
    (row : EventOutbox) : Option DomainEvent :=
  match dictLookup registry row.event_type with
  | none => none
  | some deserialize => deserialize row.event_data

/-- `OutboxEventPublisher._publish_single_event`: reconstruct the row's
event; if that yields nothing, mark the row failed with
`Unknown event type: <event_type>`; otherwise publish on the bus and mark
the row published on success or failed with the exception message on error.
`_mark_as_published`/`_mark_as_failed` dispatch the corresponding commands
(whose handlers are `applyOutboxOp`) and swallow their own errors, so the
result is a plain state. -/
def publishSingleOutboxEvent (registry : List (String × (String → Option DomainEvent)))
    (busPublish : DomainEvent → PublisherSt → PublisherSt × Except PyExc Unit)
    (now : Int) (row : EventOutbox) (s : PublisherSt) : PublisherSt :=
  match reconstructOutboxEvent registry row with
  | none =>
    { s with
      session := applyOutboxOp s.session
        (.markFailed row.id ("Unknown event type: " ++ row.event_type)) }
  | some event =>
    match busPublish event s with
    | (s1, .ok _) =>
      { s1 with
        session := applyOutboxOp s1.session (.markPublished row.id now) }
    | (s1, .error e) =>
      { s1 with
        session := applyOutboxOp s1.session (.markFailed row.id e.str) }

/-- `message_bus.publish_event` when delivery succeeds: the event reaches
the external bus. -/
def busPublishOk (event : DomainEvent) (s : PublisherSt) :
    PublisherSt × Except PyExc Unit :=
  ({ s with busEvents := s.busEvents ++ [event] }, .ok ())

/-- `OutboxEventPublisher._process_outbox_events`: query a batch of
unpublished events (`GetUnpublishedEventsQuery(batch_size)`) and publish
each in order; any query failure is caught and logged, leaving the state
as is. -/
def processOutboxEvents (registry : List (String × (String → Option DomainEvent)))
    (busPublish : DomainEvent → PublisherSt → PublisherSt × Except PyExc Unit)
    (now : Int) (batchSize : Nat) (s : PublisherSt) : PublisherSt :=
  match getUnpublishedEventsHandle ⟨batchSize, true⟩ s.session with
  | (_, .ok unpublished) =>
    unpublished.foldl
      (fun acc row => publishSingleOutboxEvent registry busPublish now row acc) s
  | (_, .error _) => s

/-- C10: a row whose `event_type` is not in the pre-registered event-type
registry is marked failed with the descriptive message
`Unknown event type: <event_type>` instead of being published (the bus is
untouched), and a polling cycle over such a row completes normally with
exactly that effect — the loop is never crashed by an unresolvable type. -/
theorem claim_C10_unresolved_event_type
    (registry : List (String × (String → Option DomainEvent)))
    (busPublish : DomainEvent → PublisherSt → PublisherSt × Except PyExc Unit)
    (now : Int) (batchSize : Nat) (row : EventOutbox) (s : PublisherSt)
    (h : dictLookup registry row.event_type = none) :
    publishSingleOutboxEvent registry busPublish now row s =
      { s with
        session := applyOutboxOp s.session
          (.markFailed row.id ("Unknown event type: " ++ row.event_type)) } ∧
    (publishSingleOutboxEvent registry busPublish now row s).busEvents =
      s.busEvents ∧
    (0 < batchSize → s.session.rows = [row] → row.published_at = none →
      processOutboxEvents registry busPublish now batchSize s =
        { s with
          session := applyOutboxOp s.session
            (.markFailed row.id ("Unknown event type: " ++ row.event_type)) }) := by
  have hrec : reconstructOutboxEvent registry row = none := by
    unfold reconstructOutboxEvent
    rw [h]
  have hmain : publishSingleOutboxEvent registry busPublish now row s =
      { s with
        session := applyOutboxOp s.session
          (.markFailed row.id ("Unknown event type: " ++ row.event_type)) } := by
    unfold publishSingleOutboxEvent
    rw [hrec]
  refine ⟨hmain, by rw [hmain], ?_⟩
  intro hpos hrows hpub
  unfold processOutboxEvents getUnpublishedEventsHandle
  rw [hrows]
  have hfil : List.filter (fun r => decide (r.published_at = none)) [row] = [row] := by
    simp [hpub]
  simp only [Bool.not_true, if_false, hfil]
  have hsort : sortByCreatedAt [row] = [row] := rfl
  rw [hsort, List.take_of_length_le (by simpa using hpos)]
  simpa using hmain

/-- Witness for C10: a pending row of unregistered type `GhostEvent` under
an empty registry: the cycle marks it failed with the descriptive message
and the bus stays empty. -/
theorem claim_C10_witness :
    publishSingleOutboxEvent [] busPublishOk 9 ⟨0, "GhostEvent", "d", 0, none, 0, none, none⟩
        ⟨⟨[⟨0, "GhostEvent", "d", 0, none, 0, none, none⟩], 1, 0⟩, []⟩ =
      { session := applyOutboxOp ⟨[⟨0, "GhostEvent", "d", 0, none, 0, none, none⟩], 1, 0⟩
          (.markFailed 0 ("Unknown event type: " ++ "GhostEvent"))
        busEvents := [] } ∧
    processOutboxEvents [] busPublishOk 9 100
        ⟨⟨[⟨0, "GhostEvent", "d", 0, none, 0, none, none⟩], 1, 0⟩, []⟩ =
      { session := applyOutboxOp ⟨[⟨0, "GhostEvent", "d", 0, none, 0, none, none⟩], 1, 0⟩
          (.markFailed 0 ("Unknown event type: " ++ "GhostEvent"))
        busEvents := [] } := by
  have h := claim_C10_unresolved_event_type [] busPublishOk 9 100
    ⟨0, "GhostEvent", "d", 0, none, 0, none, none⟩
    ⟨⟨[⟨0, "GhostEvent", "d", 0, none, 0, none, none⟩], 1, 0⟩, []⟩ rfl
  exact ⟨h.1, h.2.2 (by decide) rfl rfl⟩

end AES
